import Mathlib

/-!
Shallow embedding of the granular audio engine in
`src/components/AudioEngine.ts` (the current engine revision), together
with theorems checking the specification's claims about it.

Conventions of the embedding:
* JS numbers are modelled as rationals (`ℚ`); the quantities involved are
  far from Float rounding boundaries, and the spec states its formulas in
  exact arithmetic.
* `Math.random()` outputs are passed in explicitly, either as an oracle
  argument in `[0,1)` or as a pre-drawn stream (`List ℚ`).
* Web Audio node mutation is modelled by explicit state passing: methods
  become functions from a state record to a state record (plus a result).
* `Math.floor` / `Math.ceil` become `Int.floor` / `Int.ceil` on `ℚ`.
-/

namespace PaintSonic

/-! ## Tempo sync controller (AudioEngine fields bpm / grainSubdivision /
delaySubdivision and methods setBPM / setGrainSubdivision /
setDelaySubdivision / updateDelayTime, lines 993-1027). -/

/-- The engine state relevant to the tempo controls: the three stored tempo
fields, presence flags for `this.delay` / `this.audioContext`, and the
delay line's current delay time (the eventual value of the 50ms ramp). -/
structure TempoEngineState where
  bpm : ℚ
  grainSubdivision : ℚ
  delaySubdivision : ℚ
  delayPresent : Bool
  ctxPresent : Bool
  delayTime : ℚ
  deriving Repr, DecidableEq

/-- `updateDelayTime` (lines 1011-1027): recompute
`newTime = (60/bpm)/delaySubdivision`; skip the update when the result is
non-finite or `≤ 0`, else ramp the delay time to it (we model the ramp's
final value).  In `ℚ`, division by zero yields `0`, so the JS non-finite
cases (`bpm = 0` or `delaySubdivision = 0`, giving `Infinity`/`NaN`) are
exactly the extra cases caught here by `newTime ≤ 0`. -/
def updateDelayTime (s : TempoEngineState) : TempoEngineState :=
  if s.delayPresent ∧ s.ctxPresent then
    if (60 / s.bpm) / s.delaySubdivision ≤ 0 then s
    else { s with delayTime := (60 / s.bpm) / s.delaySubdivision }
  else s

/-- `setBPM` (lines 993-1003): stores the bpm unconditionally, then calls
`updateDelayTime`.  (The asynchronous reverb-impulse regeneration touches
no tempo state and is not modelled here.) -/
def setBPM (s : TempoEngineState) (bpm : ℚ) : TempoEngineState :=
  updateDelayTime { s with bpm := bpm }

/-- `setGrainSubdivision` (lines 1004-1006): stores the value
unconditionally. -/
def setGrainSubdivision (s : TempoEngineState) (subdivision : ℚ) : TempoEngineState :=
  { s with grainSubdivision := subdivision }

/-- `setDelaySubdivision` (lines 1007-1010): stores the value
unconditionally, then calls `updateDelayTime`. -/
def setDelaySubdivision (s : TempoEngineState) (subdivision : ℚ) : TempoEngineState :=
  updateDelayTime { s with delaySubdivision := subdivision }

/-- One call of the tempo command surface. -/
inductive TempoCmd where
  | bpmCmd (b : ℚ)
  | grainSubCmd (v : ℚ)
  | delaySubCmd (v : ℚ)
  deriving Repr, DecidableEq

def applyTempoCmd (s : TempoEngineState) : TempoCmd → TempoEngineState
  | TempoCmd.bpmCmd b => setBPM s b
  | TempoCmd.grainSubCmd v => setGrainSubdivision s v
  | TempoCmd.delaySubCmd v => setDelaySubdivision s v

def applyTempoCmds (s : TempoEngineState) (cmds : List TempoCmd) : TempoEngineState :=
  cmds.foldl applyTempoCmd s

/-- The engine state right after `initialize()`: defaults bpm = 120,
grainSubdivision = 4, delaySubdivision = 2, delay and context present,
and delay time (60/120)/2 = 1/4 set by the initial `updateDelayTime`. -/
def initTempoState : TempoEngineState :=
  { bpm := 120, grainSubdivision := 4, delaySubdivision := 2
    delayPresent := true, ctxPresent := true, delayTime := 1/4 }

/-! ## Recording session state (startRecording, lines 865-873). -/

/-- The engine state relevant to the capture pipeline: presence flags for
`this.audioContext` / `this.recorderNode`, and the recording fields. -/
structure RecState where
  ctxPresent : Bool
  recorderPresent : Bool
  recordedChannelCount : ℕ
  recordedBuffers : List (List (List ℚ))
  recordingLength : ℕ
  isRecording : Bool
  deriving Repr, DecidableEq

/-- `startRecording` (lines 865-873): returns false (no state change) when
the context or recorder node is absent or a recording is already active;
otherwise resets the channel buffers and frame counter and sets the
active flag. -/
def startRecording (s : RecState) : RecState × Bool :=
  if ¬s.ctxPresent ∨ ¬s.recorderPresent ∨ s.isRecording then (s, false)
  else ({ s with recordedChannelCount := 0, recordedBuffers := []
                 recordingLength := 0, isRecording := true }, true)

/-! ## Color-effect profile resolver (applyColorEffect, lines 732-856).

The source method writes the filter configuration and a gain value into
the two (freshly created, per-grain) nodes it is given and returns the
settings record.  The embedding returns all three; a random stream is
threaded through to witness that the resolver draws nothing from it. -/

/-- The fields of a `BiquadFilterNode` written by `applyColorEffect`,
starting from the Web Audio defaults (type lowpass, frequency 350,
Q 1, gain 0). -/
structure FilterConfig where
  kind : String
  frequency : ℚ
  quality : ℚ
  gain : ℚ
  deriving Repr, DecidableEq

def defaultFilterConfig : FilterConfig :=
  { kind := "lowpass", frequency := 350, quality := 1, gain := 0 }

/-- The `ColorEffectSettings` record of the source. -/
structure ColorEffectSettings where
  reverbSend : ℚ
  delaySend : ℚ
  gainMultiplier : ℚ
  durationMultiplier : ℚ
  panSpread : ℚ
  dryLevel : ℚ
  densityScale : ℚ
  playbackRateOffset : ℚ
  playbackRateMultiplier : ℚ
  positionJitter : ℚ
  attackPortion : ℚ
  pitchRandomness : ℚ
  deriving Repr, DecidableEq

/-- The literal initializer of `settings` in the source (lines 734-747). -/
def baseColorSettings : ColorEffectSettings :=
  { reverbSend := 0.1, delaySend := 0, gainMultiplier := 1
    durationMultiplier := 1, panSpread := 0, dryLevel := 1
    densityScale := 1, playbackRateOffset := 0, playbackRateMultiplier := 1
    positionJitter := 0.005, attackPortion := 0.12, pitchRandomness := 0 }

/-- `applyColorEffect` (lines 732-856).  Output: the filter configuration,
the value written to `gain.gain.value`, and the settings record; the
random stream is returned untouched (the body contains no draw). -/
def applyColorEffect (rng : List ℚ) (color : String) (brushSize : ℚ) :
    (FilterConfig × ℚ × ColorEffectSettings) × List ℚ :=
  let wetAmount := min (brushSize / 30) 1
  let s0 := baseColorSettings
  let f0 := defaultFilterConfig
  -- gain.gain.value = 1 (line 749), possibly overwritten per branch
  let result : FilterConfig × ℚ × ColorEffectSettings :=
    if color = "electric-blue" then
      ({ f0 with kind := "lowpass", frequency := 700 + wetAmount * 2800
                 quality := 0.8 + wetAmount * 1.4 },
       1,
       { s0 with reverbSend := 0.18 + wetAmount * 0.12
                 durationMultiplier := 1.15, dryLevel := 0.95
                 positionJitter := 0.012 + wetAmount * 0.01
                 attackPortion := 0.16, pitchRandomness := 0.01 })
    else if color = "neon-green" then
      ({ f0 with kind := "bandpass", frequency := 450 + wetAmount * 700
                 quality := 4 + wetAmount * 6 },
       1,
       { s0 with reverbSend := 0.12 + wetAmount * 0.08
                 delaySend := 0.18 + wetAmount * 0.12
                 panSpread := min 0.6 (0.35 + wetAmount * 0.2)
                 durationMultiplier := 0.92, densityScale := 1.15
                 playbackRateMultiplier := 1.03
                 positionJitter := 0.02 + wetAmount * 0.015
                 attackPortion := 0.12, pitchRandomness := 0.025 })
    else if color = "hot-pink" then
      ({ f0 with kind := "highpass", frequency := max 150 (700 - wetAmount * 360) },
       1.1,
       { s0 with reverbSend := 0.5 + wetAmount * 0.22
                 delaySend := 0.12 + wetAmount * 0.08
                 gainMultiplier := 1.35, durationMultiplier := 1.08
                 dryLevel := 0.7, panSpread := 0.25
                 positionJitter := 0.018 + wetAmount * 0.02
                 attackPortion := 0.2, pitchRandomness := 0.018 })
    else if color = "cyber-orange" then
      ({ f0 with kind := "notch", frequency := 950 + wetAmount * 850
                 quality := 2 + wetAmount * 5 },
       0.95,
       { s0 with reverbSend := 0.14 + wetAmount * 0.08
                 delaySend := 0.4 + wetAmount * 0.25
                 dryLevel := 0.9, gainMultiplier := 1.15
                 durationMultiplier := 0.95, densityScale := 1.2
                 panSpread := 0.18, playbackRateMultiplier := 1.03
                 positionJitter := 0.014 + wetAmount * 0.012
                 attackPortion := 0.1, pitchRandomness := 0.012 })
    else if color = "violet-glow" then
      ({ f0 with kind := "peaking", frequency := 260 + wetAmount * 320
                 quality := 2.2 + wetAmount * 3, gain := 3 + wetAmount * 4 },
       1.1,
       { s0 with reverbSend := 0.42 + wetAmount * 0.18
                 delaySend := 0.2 + wetAmount * 0.1
                 gainMultiplier := 1.25, durationMultiplier := 1.12
                 dryLevel := 0.85, panSpread := 0.2
                 positionJitter := 0.016 + wetAmount * 0.02
                 attackPortion := 0.18, pitchRandomness := 0.02 })
    else if color = "reverse-grain" then
      ({ f0 with kind := "highpass", frequency := 380 + wetAmount * 140
                 quality := 1.2 + wetAmount * 0.8 },
       1.05,
       { s0 with reverbSend := 0.38 + wetAmount * 0.22
                 delaySend := 0.18 + wetAmount * 0.14
                 gainMultiplier := 1.05, durationMultiplier := 1.35
                 dryLevel := 0.75, densityScale := 0.85
                 panSpread := 0.22, playbackRateMultiplier := 0.92
                 positionJitter := 0.022 + wetAmount * 0.03
                 attackPortion := 0.24, pitchRandomness := 0.035 })
    else
      ({ f0 with kind := "allpass" }, 1, { s0 with reverbSend := 0.1 })
  (result, rng)

/-! ## Source buffer model and the reverse-segment extractor
(createBufferSegment, lines 709-730). -/

/-- A decoded `AudioBuffer`: sample rate, frame count, and per-channel
sample data.  Well-formed buffers have every channel of length
`length`; this is stated as a hypothesis where needed. -/
structure AudioBufferM where
  sampleRate : ℚ
  length : ℕ
  channels : List (List ℚ)
  deriving Repr, DecidableEq

/-- `AudioBuffer.duration = length / sampleRate`. -/
def AudioBufferM.duration (b : AudioBufferM) : ℚ := (b.length : ℚ) / b.sampleRate

/-- `AudioBuffer.numberOfChannels`. -/
def AudioBufferM.numberOfChannels (b : AudioBufferM) : ℕ := b.channels.length

/-- Read `l[i]` for a possibly negative JS index: a `Float32Array` read
out of bounds yields `undefined`; the only such reads happen in degenerate
ranges outside any claim, and are modelled as 0. -/
def getQZ (l : List ℚ) (i : ℤ) : ℚ :=
  if i < 0 then 0 else l.getD i.toNat 0

/-- The body of `createBufferSegment` (lines 713-729), given the context
sample rate and the source buffer: clamp the sample range, allocate
`max 1 (endSample - startSample)` frames, and copy each channel either
reversed (`target[i] = source[endSample-1-i]`) or forward
(`target.set(source.subarray(startSample, endSample))`, the rest of the
fresh buffer staying zero). -/
def bufferSegment (sampleRate : ℚ) (buf : AudioBufferM)
    (startTime duration : ℚ) (reverse : Bool) : AudioBufferM :=
  let startSample : ℤ := max 0 ⌊startTime * sampleRate⌋
  let endSample : ℤ := min (buf.length : ℤ) ⌊(startTime + duration) * sampleRate⌋
  let frameCount : ℕ := (max 1 (endSample - startSample)).toNat
  { sampleRate := sampleRate
    length := frameCount
    channels := buf.channels.map (fun src =>
      if reverse then
        (List.range frameCount).map (fun (i : ℕ) => getQZ src (endSample - 1 - (i : ℤ)))
      else
        let sl := (src.drop startSample.toNat).take ((endSample - startSample).toNat)
        sl ++ List.replicate (frameCount - sl.length) 0) }

/-- `createBufferSegment` (lines 709-730): returns `null` exactly when the
audio context or the loaded source buffer is absent; otherwise returns the
segment buffer built by `bufferSegment`. -/
def createBufferSegment (ctxSampleRate : Option ℚ) (audioBuffer : Option AudioBufferM)
    (startTime duration : ℚ) (reverse : Bool) : Option AudioBufferM :=
  match ctxSampleRate, audioBuffer with
  | some sr, some buf => some (bufferSegment sr buf startTime duration reverse)
  | _, _ => none

/-! ## Grain synthesizer numeric pipeline (createGrain, lines 549-707).
Each helper is the straight-line translation of the cited lines. -/

/-- Lines 561-564: `subDur = (60/bpm)/grainSubdivision`;
`delayOffset = syncOn ? ceil(now/subDur)*subDur - now : 0`;
`playTime = now + delayOffset`. -/
def computePlayTime (tempoSyncOn : Bool) (bpm grainSubdivision nowTime : ℚ) : ℚ :=
  let subDur := (60 / bpm) / grainSubdivision
  let delayOffset := if tempoSyncOn then (⌈nowTime / subDur⌉ : ℚ) * subDur - nowTime else 0
  nowTime + delayOffset

/-- Lines 570-579: base rate `0.5 + pitch*1.5`, add the profile offset and
clamp to `≥ 0.05`, multiply by the profile multiplier and clamp again,
then (when `pitchRandomness > 0`) multiply by `1 + (rand*2-1)*pitchRandomness`
and clamp once more.  `rand` is the `Math.random()` draw. -/
def computePlaybackRate (pitch rateOffset rateMultiplier pitchRandomness rand : ℚ) : ℚ :=
  let basePlaybackRate := 0.5 + pitch * 1.5
  let r1 := max 0.05 (basePlaybackRate + rateOffset)
  let r2 := max 0.05 (r1 * rateMultiplier)
  if 0 < pitchRandomness then
    let jitter := (rand * 2 - 1) * pitchRandomness
    max 0.05 (r2 * (1 + jitter))
  else r2

/-- Lines 583-584: `speedFactor = min(min(density,10) * densityScale, 10)`. -/
def computeSpeedFactor (density densityScale : ℚ) : ℚ :=
  min (min density 10 * densityScale) 10

/-- Lines 582-598: the grain duration computation, including the final
safety cap `min(grainDuration, max(0.001, bufferDuration - 0.0005))`. -/
def computeGrainDuration (tempoSyncOn : Bool)
    (brushSize density densityScale durationMultiplier bufferDuration : ℚ) : ℚ :=
  let baseDuration := 0.05 + (brushSize / 50) * 0.1
  let speedFactor := computeSpeedFactor density densityScale
  let durationBase := if tempoSyncOn then baseDuration else baseDuration / (1 + speedFactor * 0.5)
  let g0 := max 0.035 (durationBase * durationMultiplier)
  let g1 :=
    if bufferDuration ≤ 0.05 then
      max 0.0015 (bufferDuration * 0.85)
    else
      let bufferMargin := max 0.002 (bufferDuration * 0.0125)
      let allowedMax := max 0.025 (bufferDuration - bufferMargin)
      max 0.01 (min g0 allowedMax)
  min g1 (max 0.001 (bufferDuration - 0.0005))

/-- Lines 600-612: start position `position*bufferDuration`, jittered by
`(rand*2-1)*jitterScale*bufferDuration` when `jitterScale > 0`, clamped to
`[0, bufferDuration]`, with the extra reverse-mode clamps of lines
609-612. -/
def clampedStartTime (position jitterScale rand bufferDuration grainDuration : ℚ)
    (isReverse : Bool) : ℚ :=
  let st0 := position * bufferDuration
    + (if 0 < jitterScale then (rand * 2 - 1) * jitterScale * bufferDuration else 0)
  let st1 := max 0 (min bufferDuration st0)
  if isReverse then
    min (bufferDuration - 0.0001) (max (grainDuration + 0.0001) st1)
  else st1

/-- Lines 632-633 (non-reverse branch):
`maxStart = max(0, bufferDuration - grainDuration - 0.0001)`;
`sourceOffset = max(0, min(maxStart, startTime))`. -/
def computeSourceOffset (bufferDuration grainDuration startTime : ℚ) : ℚ :=
  let maxStart := max 0 (bufferDuration - grainDuration - 0.0001)
  max 0 (min maxStart startTime)

/-- The scheduling outcome of one `createGrain` call: the values passed to
`source.start(playTime, sourceOffset, playbackDuration)`, the envelope
duration, the playback rate, and (for reverse grains) the extracted
segment. -/
structure GrainOut where
  playTime : ℚ
  playbackRate : ℚ
  grainDuration : ℚ
  sourceOffset : ℚ
  playbackDuration : ℚ
  segment : Option AudioBufferM
  deriving Repr, DecidableEq

/-- `createGrain` (lines 549-707), reduced to its scheduling outcome.
`none` models the silent no-op returns: missing context/buffer, not
playing, or an aborted reverse grain (lines 620-626).  `rPitch` and
`rJitter` are the `Math.random()` draws of lines 576 and 604; `rng` is the
stream handed to `applyColorEffect`. -/
def createGrain (ctxPresent : Bool) (ctxSampleRate : ℚ) (audioBuffer : Option AudioBufferM)
    (isPlaying : Bool) (tempoSyncOn : Bool) (bpm grainSubdivision nowTime : ℚ)
    (position pitch density : ℚ) (color : String) (brushSize : ℚ)
    (rPitch rJitter : ℚ) (rng : List ℚ) : Option GrainOut :=
  match audioBuffer with
  | none => none
  | some buf =>
    if ¬ctxPresent ∨ ¬isPlaying then none
    else
      let bufferDuration := buf.duration
      let playTime := computePlayTime tempoSyncOn bpm grainSubdivision nowTime
      let effectSettings := ((applyColorEffect rng color brushSize).1).2.2
      let playbackRate := computePlaybackRate pitch effectSettings.playbackRateOffset
        effectSettings.playbackRateMultiplier effectSettings.pitchRandomness rPitch
      let grainDuration := computeGrainDuration tempoSyncOn brushSize density
        effectSettings.densityScale effectSettings.durationMultiplier bufferDuration
      let startTime := clampedStartTime position effectSettings.positionJitter rJitter
        bufferDuration grainDuration (color = "reverse-grain")
      if color = "reverse-grain" then
        let segmentEnd := min bufferDuration startTime
        let segmentStart := max 0 (segmentEnd - grainDuration)
        let segmentDuration := max 0 (segmentEnd - segmentStart)
        if segmentDuration ≤ 0.001 then none
        else
          match createBufferSegment (some ctxSampleRate) (some buf)
              segmentStart segmentDuration true with
          | none => none
          | some seg =>
            some { playTime := playTime, playbackRate := playbackRate
                   grainDuration := min grainDuration segmentDuration
                   sourceOffset := 0, playbackDuration := segmentDuration
                   segment := some seg }
      else
        some { playTime := playTime, playbackRate := playbackRate
               grainDuration := grainDuration
               sourceOffset := computeSourceOffset bufferDuration grainDuration startTime
               playbackDuration := grainDuration, segment := none }

/-! ## WAV encoding (flattenChannel lines 931-939, encodeWAV lines 942-987,
stopRecording lines 876-892). -/

/-- Little-endian bytes of `DataView.setUint16` (value taken mod 2^16). -/
def u16le (n : ℕ) : List ℕ := [n % 256, n / 256 % 256]

/-- Little-endian bytes of `DataView.setUint32` (value taken mod 2^32). -/
def u32le (n : ℕ) : List ℕ :=
  [n % 256, n / 256 % 256, n / 65536 % 256, n / 16777216 % 256]

/-- Reassemble a little-endian 16-bit field from the byte stream. -/
def decodeU16 (l : List ℕ) : ℕ := l.getD 0 0 + 256 * l.getD 1 0

/-- Reassemble a little-endian 32-bit field from the byte stream. -/
def decodeU32 (l : List ℕ) : ℕ :=
  l.getD 0 0 + 256 * l.getD 1 0 + 65536 * l.getD 2 0 + 16777216 * l.getD 3 0

/-- `charCodeAt` bytes of `"RIFF"`. -/
def asciiRIFF : List ℕ := [82, 73, 70, 70]

/-- `charCodeAt` bytes of `"WAVE"`. -/
def asciiWAVE : List ℕ := [87, 65, 86, 69]

/-- `charCodeAt` bytes of `"fmt "`. -/
def asciiFmt : List ℕ := [102, 109, 116, 32]

/-- `charCodeAt` bytes of `"data"`. -/
def asciiData : List ℕ := [100, 97, 116, 97]

/-- Truncation toward zero, the integer conversion performed by
`DataView.setInt16` on its number argument. -/
def ratTrunc (q : ℚ) : ℤ := if q < 0 then ⌈q⌉ else ⌊q⌋

/-- Line 982: `sample = Math.max(-1, Math.min(1, sample))`. -/
def clampSample (q : ℚ) : ℚ := max (-1) (min 1 q)

/-- Line 983: the clamped sample scaled by `0x8000` when negative and
`0x7FFF` otherwise, converted to a 16-bit integer. -/
def sampleToInt16 (q : ℚ) : ℤ :=
  let s := clampSample q
  ratTrunc (if s < 0 then s * 32768 else s * 32767)

/-- The two little-endian bytes `setInt16` stores for an integer value. -/
def i16leBytes (v : ℤ) : List ℕ :=
  let u := (v % 65536).toNat
  [u % 256, u / 256]

/-- `f 0 ++ f 1 ++ ... ++ f (n-1)`: the bytes/samples appended by an
ascending JS `for` loop. -/
def seqConcat : ℕ → (ℕ → List ℚ) → List ℚ
  | 0, _ => []
  | n + 1, f => seqConcat n f ++ f n

/-- `flattenChannel` (lines 931-939): copy the channel's frame list into a
zero-initialized array of `recordingLength` samples.  (In a well-formed
session the frames fill the array exactly; the model keeps any unwritten
tail zero, as the `Float32Array` does.) -/
def flattenChannel (recordingLength : ℕ) (buffers : List (List ℚ)) : List ℚ :=
  (buffers.flatten ++ List.replicate recordingLength 0).take recordingLength

/-- Lines 948-953: `interleaved[i * numChannels + ch] = channelData[ch][i]`. -/
def interleaveSamples (channelData : List (List ℚ)) (recordingLength numChannels : ℕ) :
    List ℚ :=
  seqConcat recordingLength (fun i =>
    seqConcat numChannels (fun ch => [(channelData.getD ch []).getD i 0]))

/-- Line 943: `numChannels = recordedBuffers.length || 1`. -/
def wavNumChannels (recordedBuffers : List (List (List ℚ))) : ℕ :=
  if recordedBuffers.length = 0 then 1 else recordedBuffers.length

/-- The interleaved sample stream of `encodeWAV` (lines 946-953). -/
def wavInterleaved (recordedBuffers : List (List (List ℚ))) (recordingLength : ℕ) :
    List ℚ :=
  interleaveSamples (recordedBuffers.map (flattenChannel recordingLength))
    recordingLength (wavNumChannels recordedBuffers)

/-- The 44 header bytes written by lines 962-977, in write order. -/
def wavHeader (numChannels sampleRate dataBytes : ℕ) : List ℕ :=
  asciiRIFF ++ u32le (36 + dataBytes) ++ asciiWAVE
    ++ asciiFmt ++ u32le 16 ++ u16le 1 ++ u16le numChannels ++ u32le sampleRate
    ++ u32le (sampleRate * numChannels * 2) ++ u16le (numChannels * 2) ++ u16le 16
    ++ asciiData ++ u32le dataBytes

/-- The PCM data section written by lines 979-985. -/
def wavPCM (recordedBuffers : List (List (List ℚ))) (recordingLength : ℕ) : List ℕ :=
  (wavInterleaved recordedBuffers recordingLength).flatMap
    (fun q => i16leBytes (sampleToInt16 q))

/-- `encodeWAV` (lines 942-987): the full byte stream of the produced
blob (an `ArrayBuffer` of `44 + interleaved.length * 2` bytes, filled by
the sequential header writes and then the sample loop). -/
def encodeWAV (recordedBuffers : List (List (List ℚ))) (recordingLength sampleRate : ℕ) :
    List ℕ :=
  wavHeader (wavNumChannels recordedBuffers) sampleRate
      ((wavInterleaved recordedBuffers recordingLength).length * 2)
    ++ wavPCM recordedBuffers recordingLength

/-- `stopRecording` (lines 876-892): `null` when not initialized or not
recording; clear the active flag; `null` when nothing was captured; else
encode and reset the buffers.  `sampleRate` is the engine sample rate. -/
def stopRecording (s : RecState) (sampleRate : ℕ) : RecState × Option (List ℕ) :=
  if ¬s.ctxPresent ∨ ¬s.isRecording then (s, none)
  else
    let s1 := { s with isRecording := false }
    if s.recordingLength = 0 ∨ s.recordedBuffers.length = 0 then (s1, none)
    else ({ s1 with recordedBuffers := [], recordingLength := 0 },
          some (encodeWAV s.recordedBuffers s.recordingLength sampleRate))

/-- The header/data layout claimed for the encoder output: the literal
tags at offsets 0, 8, 12, 36, the little-endian size and format fields at
their offsets, the PCM data section, and the total length. -/
def WavFormatOk (bufs : List (List (List ℚ))) (recordingLength sampleRate : ℕ) : Prop :=
  let w := encodeWAV bufs recordingLength sampleRate
  w.take 4 = asciiRIFF
  ∧ decodeU32 ((w.drop 4).take 4) = 36 + recordingLength * bufs.length * 2
  ∧ (w.drop 8).take 4 = asciiWAVE
  ∧ (w.drop 12).take 4 = asciiFmt
  ∧ decodeU32 ((w.drop 16).take 4) = 16
  ∧ decodeU16 ((w.drop 20).take 2) = 1
  ∧ decodeU16 ((w.drop 22).take 2) = bufs.length
  ∧ decodeU32 ((w.drop 24).take 4) = sampleRate
  ∧ decodeU32 ((w.drop 28).take 4) = sampleRate * bufs.length * 2
  ∧ decodeU16 ((w.drop 32).take 2) = bufs.length * 2
  ∧ decodeU16 ((w.drop 34).take 2) = 16
  ∧ (w.drop 36).take 4 = asciiData
  ∧ decodeU32 ((w.drop 40).take 4) = recordingLength * bufs.length * 2
  ∧ w.drop 44 = wavPCM bufs recordingLength
  ∧ w.length = 44 + recordingLength * bufs.length * 2

/-- A small loaded source buffer (1 channel, 4 frames at 4 Hz) used to
evaluate the extractor on concrete inputs. -/
def demoBuf : AudioBufferM := { sampleRate := 4, length := 4, channels := [[1, 2, 3, 4]] }

/-- A sub-millisecond source buffer (1 channel, 2 frames at 4000 Hz,
duration 0.0005s), short enough to trigger the reverse-grain abort. -/
def tinyBuf : AudioBufferM := { sampleRate := 4000, length := 2, channels := [[1, 2]] }

/-- A recording session with one captured single-sample stereo frame. -/
def demoRecState : RecState :=
  { ctxPresent := true, recorderPresent := true, recordedChannelCount := 2
    recordedBuffers := [[[1/2]], [[-1/2]]], recordingLength := 1, isRecording := true }

/-! ## Theorems -/

/-- C9: `startRecording` returns false and leaves the state untouched when
a recording is already active, when the engine is not initialized (no
audio context), or when the capture node is absent. -/
theorem startRecording_failure_preserves_session (s : RecState)
    (h : s.isRecording = true ∨ s.ctxPresent = false ∨ s.recorderPresent = false) :
    startRecording s = (s, false) := by
  rcases h with h | h | h <;> simp [startRecording, h]

/-- C9 witness: a double `startRecording` on an active session fails
without disturbing it. -/
theorem startRecording_failure_preserves_session_witness :
    demoRecState.isRecording = true ∧ startRecording demoRecState = (demoRecState, false) :=
  ⟨rfl, startRecording_failure_preserves_session demoRecState (Or.inl rfl)⟩

/-- C4: resolving the color-effect profile is deterministic — identical
`(colorTag, brushSize)` arguments give identical filter settings, gain
value and settings records regardless of the engine's random stream — and
it consumes nothing from that stream (no external state is mutated). -/
theorem applyColorEffect_deterministic_pure (color : String) (brushSize : ℚ)
    (rng rng' : List ℚ) :
    (applyColorEffect rng color brushSize).1 = (applyColorEffect rng' color brushSize).1
      ∧ (applyColorEffect rng color brushSize).2 = rng :=
  ⟨rfl, rfl⟩

/-- C7 counterexample: `setBPM` stores a non-positive BPM unconditionally,
so the claimed TempoState invariant `bpm > 0` fails after the call
sequence `[setBPM (-5)]` from the initialized engine state. -/
theorem setBPM_accepts_nonpositive :
    (setBPM initTempoState (-5)).bpm = -5
      ∧ ¬(0 < (setBPM initTempoState (-5)).bpm) := by
  norm_num [setBPM, updateDelayTime, initTempoState]

/-- C7 amended: the three tempo setters store their argument
unconditionally (so BPM may become non-positive and subdivisions zero);
only the derived delay time is guarded — a non-finite or non-positive
`(60/bpm)/delaySubdivision` is skipped with the previous delay time
retained, hence a positive delay time stays positive under every sequence
of tempo calls. -/
theorem tempo_setters_unconditional_delay_guarded :
    (∀ (s : TempoEngineState) (b : ℚ), (setBPM s b).bpm = b)
    ∧ (∀ (s : TempoEngineState) (v : ℚ), (setGrainSubdivision s v).grainSubdivision = v)
    ∧ (∀ (s : TempoEngineState) (v : ℚ), (setDelaySubdivision s v).delaySubdivision = v)
    ∧ (∀ (s : TempoEngineState) (cmds : List TempoCmd),
        0 < s.delayTime → 0 < (applyTempoCmds s cmds).delayTime) := by
  refine ⟨?_, ?_, ?_, ?_⟩
  · intro s b
    show (updateDelayTime _).bpm = b
    unfold updateDelayTime
    split
    · split <;> rfl
    · rfl
  · intro s v; rfl
  · intro s v
    show (updateDelayTime _).delaySubdivision = v
    unfold updateDelayTime
    split
    · split <;> rfl
    · rfl
  · intro s cmds
    induction cmds generalizing s with
    | nil => intro h; exact h
    | cons c cs ih =>
      intro h
      refine ih _ ?_
      cases c with
      | bpmCmd b =>
        show 0 < (updateDelayTime _).delayTime
        unfold updateDelayTime
        split
        · split
          · exact h
          · next h2 => exact not_le.mp h2
        · exact h
      | grainSubCmd v => exact h
      | delaySubCmd v =>
        show 0 < (updateDelayTime _).delayTime
        unfold updateDelayTime
        split
        · split
          · exact h
          · next h2 => exact not_le.mp h2
        · exact h

/-- C7 amended witness: from the initialized state, the sequence
`setBPM (-5); setGrainSubdivision 0; setDelaySubdivision 0` leaves the
delay time at its previous positive value. -/
theorem tempo_setters_unconditional_delay_guarded_witness :
    (0 : ℚ) < initTempoState.delayTime
    ∧ (setBPM initTempoState (-5)).bpm = -5
    ∧ 0 < (applyTempoCmds initTempoState
        [TempoCmd.bpmCmd (-5), TempoCmd.grainSubCmd 0, TempoCmd.delaySubCmd 0]).delayTime :=
  ⟨by norm_num [initTempoState],
   tempo_setters_unconditional_delay_guarded.1 initTempoState (-5),
   tempo_setters_unconditional_delay_guarded.2.2.2 initTempoState _ (by norm_num [initTempoState])⟩

/-- C8: for every pitch in `[0,1]` and every profile offset, multiplier
and pitch randomness (`≤ 1`), the playback rate assigned to the grain has
magnitude at least 0.05: every branch of the computation ends in a clamp
to `≥ 0.05`. -/
theorem createGrain_playback_rate_floor
    (pitch rateOffset rateMultiplier pitchRandomness rand : ℚ)
    (_hp0 : 0 ≤ pitch) (_hp1 : pitch ≤ 1) (_hpr : pitchRandomness ≤ 1) :
    0.05 ≤ |computePlaybackRate pitch rateOffset rateMultiplier pitchRandomness rand| := by
  have h : 0.05 ≤ computePlaybackRate pitch rateOffset rateMultiplier pitchRandomness rand := by
    simp only [computePlaybackRate]
    split
    · exact le_max_left _ _
    · exact le_max_left _ _
  exact le_trans h (le_abs_self _)

/-- C8 witness: the rate floor at a concrete grain trigger. -/
theorem createGrain_playback_rate_floor_witness :
    (0 : ℚ) ≤ 1/2 ∧ (1/2 : ℚ) ≤ 1 ∧ (0.035 : ℚ) ≤ 1
    ∧ 0.05 ≤ |computePlaybackRate (1/2) 0 0.92 0.035 (1/4)| :=
  ⟨by norm_num, by norm_num, by norm_num,
   createGrain_playback_rate_floor (1/2) 0 0.92 0.035 (1/4)
     (by norm_num) (by norm_num) (by norm_num)⟩

/-- The grain duration never exceeds the final safety cap of line 597-598. -/
lemma computeGrainDuration_le_safetyCap (tempoSyncOn : Bool)
    (brushSize density densityScale durationMultiplier bufferDuration : ℚ) :
    computeGrainDuration tempoSyncOn brushSize density densityScale durationMultiplier
        bufferDuration
      ≤ max 0.001 (bufferDuration - 0.0005) := by
  simp only [computeGrainDuration]
  exact min_le_right _ _

/-- Duration bounds of the grain-duration computation, over arbitrary
profile multipliers. -/
lemma computeGrainDuration_cases (tempoSyncOn : Bool)
    (brushSize density densityScale durationMultiplier bufferDuration : ℚ) :
    (0.05 < bufferDuration →
      0.01 ≤ computeGrainDuration tempoSyncOn brushSize density densityScale
          durationMultiplier bufferDuration
      ∧ computeGrainDuration tempoSyncOn brushSize density densityScale
          durationMultiplier bufferDuration
        ≤ bufferDuration - max 0.002 (bufferDuration * 0.0125))
    ∧ (bufferDuration ≤ 0.05 →
      computeGrainDuration tempoSyncOn brushSize density densityScale
          durationMultiplier bufferDuration
        = min (max 0.0015 (bufferDuration * 0.85))
            (max 0.001 (bufferDuration - 0.0005)))
    ∧ (bufferDuration ≤ 0.05 → 1/300 ≤ bufferDuration →
      computeGrainDuration tempoSyncOn brushSize density densityScale
          durationMultiplier bufferDuration
        = bufferDuration * 0.85) := by
  refine ⟨?_, ?_, ?_⟩
  · intro hD
    have hnot : ¬(bufferDuration ≤ 0.05) := not_le.mpr hD
    constructor
    · simp only [computeGrainDuration, if_neg hnot]
      refine le_min (le_max_left _ _) (le_max_of_le_right (by linarith))
    · simp only [computeGrainDuration, if_neg hnot]
      refine le_trans (min_le_left _ _) (max_le (le_sub_iff_add_le.mpr ?_) ?_)
      · have h1 : max 0.002 (bufferDuration * 0.0125) ≤ bufferDuration - 0.01 :=
          max_le (by linarith) (by linarith)
        linarith
      · refine le_trans (min_le_right _ _) ?_
        have h2 : (0.025 : ℚ) ≤ bufferDuration - max 0.002 (bufferDuration * 0.0125) := by
          have := max_le (show (0.002:ℚ) ≤ bufferDuration - 0.025 by linarith)
            (show bufferDuration * 0.0125 ≤ bufferDuration - 0.025 by linarith)
          linarith
        rw [max_eq_right h2]
  · intro hD
    simp only [computeGrainDuration, if_pos hD]
  · intro hD h300
    simp only [computeGrainDuration, if_pos hD]
    rw [max_eq_right (show (0.0015:ℚ) ≤ bufferDuration * 0.85 by linarith),
        max_eq_right (show (0.001:ℚ) ≤ bufferDuration - 0.0005 by linarith)]
    exact min_eq_left (by linarith)

/-- C2 counterexample: for a 1ms source buffer (`bufferDuration ≤ 0.05`)
the computed grain duration is 0.001, not the claimed
`0.85 × bufferDuration = 0.00085` (the 0.0015 floor and the
`max(0.001, bufferDuration - 0.0005)` safety cap intervene). -/
theorem grain_duration_small_buffer_counterexample :
    (1/1000 : ℚ) ≤ 0.05
    ∧ computeGrainDuration true 10 0 1 1 (1/1000) = 1/1000
    ∧ computeGrainDuration true 10 0 1 1 (1/1000) ≠ (1/1000) * 0.85 := by
  norm_num [computeGrainDuration, computeSpeedFactor]

/-- C2 amended: for every sync mode, brush size in `[5,50]`, density `≥ 0`
and color profile, the grain duration lies in
`[0.01, bufferDuration - margin]` with
`margin = max(0.002, 0.0125 × bufferDuration)` whenever
`bufferDuration > 0.05`; when `bufferDuration ≤ 0.05` the duration is
`min(max(0.0015, 0.85 × bufferDuration), max(0.001, bufferDuration - 0.0005))`,
which equals `0.85 × bufferDuration` whenever `bufferDuration ≥ 1/300`. -/
theorem createGrain_duration_bounds (tempoSyncOn : Bool)
    (brushSize density bufferDuration : ℚ) (color : String) (rng : List ℚ)
    (_hb1 : 5 ≤ brushSize) (_hb2 : brushSize ≤ 50) (_hd : 0 ≤ density) :
    (0.05 < bufferDuration →
      0.01 ≤ computeGrainDuration tempoSyncOn brushSize density
          (((applyColorEffect rng color brushSize).1).2.2).densityScale
          (((applyColorEffect rng color brushSize).1).2.2).durationMultiplier bufferDuration
      ∧ computeGrainDuration tempoSyncOn brushSize density
          (((applyColorEffect rng color brushSize).1).2.2).densityScale
          (((applyColorEffect rng color brushSize).1).2.2).durationMultiplier bufferDuration
        ≤ bufferDuration - max 0.002 (bufferDuration * 0.0125))
    ∧ (bufferDuration ≤ 0.05 →
      computeGrainDuration tempoSyncOn brushSize density
          (((applyColorEffect rng color brushSize).1).2.2).densityScale
          (((applyColorEffect rng color brushSize).1).2.2).durationMultiplier bufferDuration
        = min (max 0.0015 (bufferDuration * 0.85))
            (max 0.001 (bufferDuration - 0.0005)))
    ∧ (bufferDuration ≤ 0.05 → 1/300 ≤ bufferDuration →
      computeGrainDuration tempoSyncOn brushSize density
          (((applyColorEffect rng color brushSize).1).2.2).densityScale
          (((applyColorEffect rng color brushSize).1).2.2).durationMultiplier bufferDuration
        = bufferDuration * 0.85) :=
  computeGrainDuration_cases tempoSyncOn brushSize density _ _ bufferDuration

/-- C2 amended witness: concrete evaluations in both buffer regimes. -/
theorem createGrain_duration_bounds_witness :
    ((5:ℚ) ≤ 10 ∧ (10:ℚ) ≤ 50 ∧ (0:ℚ) ≤ 2 ∧ (0.05:ℚ) < 1)
    ∧ (0.01 ≤ computeGrainDuration true 10 2
          (((applyColorEffect [] "electric-blue" 10).1).2.2).densityScale
          (((applyColorEffect [] "electric-blue" 10).1).2.2).durationMultiplier 1
      ∧ computeGrainDuration true 10 2
          (((applyColorEffect [] "electric-blue" 10).1).2.2).densityScale
          (((applyColorEffect [] "electric-blue" 10).1).2.2).durationMultiplier 1
        ≤ 1 - max 0.002 (1 * 0.0125))
    ∧ computeGrainDuration true 10 2
          (((applyColorEffect [] "electric-blue" 10).1).2.2).densityScale
          (((applyColorEffect [] "electric-blue" 10).1).2.2).durationMultiplier (1/100)
        = (1/100) * 0.85 :=
  ⟨⟨by norm_num, by norm_num, by norm_num, by norm_num⟩,
   (createGrain_duration_bounds true 10 2 1 "electric-blue" []
      (by norm_num) (by norm_num) (by norm_num)).1 (by norm_num),
   (createGrain_duration_bounds true 10 2 (1/100) "electric-blue" []
      (by norm_num) (by norm_num) (by norm_num)).2.2 (by norm_num) (by norm_num)⟩

/-- C3: with tempo sync enabled the scheduled start time is exactly
`subDur * ⌈now / subDur⌉` for `subDur = (60/bpm)/grainSubdivision` — the
smallest grid multiple at or after the clock time (it is `≥ now`, and
every grid multiple `≥ now` is `≥` it); start times are monotone in the
clock time, so successive triggers get non-decreasing grid-aligned starts;
with sync disabled the grain starts immediately. -/
theorem createGrain_tempo_quantization (bpm grainSubdivision nowTime : ℚ)
    (hb : 0 < bpm) (hg : 0 < grainSubdivision) :
    (computePlayTime true bpm grainSubdivision nowTime
      = ((60 / bpm) / grainSubdivision) * ⌈nowTime / ((60 / bpm) / grainSubdivision)⌉)
    ∧ nowTime ≤ computePlayTime true bpm grainSubdivision nowTime
    ∧ (∀ k : ℤ, nowTime ≤ (k : ℚ) * ((60 / bpm) / grainSubdivision) →
        computePlayTime true bpm grainSubdivision nowTime
          ≤ (k : ℚ) * ((60 / bpm) / grainSubdivision))
    ∧ (∀ t1 t2 : ℚ, t1 ≤ t2 →
        computePlayTime true bpm grainSubdivision t1
          ≤ computePlayTime true bpm grainSubdivision t2)
    ∧ computePlayTime false bpm grainSubdivision nowTime = nowTime := by
  have hs : 0 < (60 / bpm) / grainSubdivision :=
    div_pos (div_pos (by norm_num) hb) hg
  have heq : ∀ t : ℚ, computePlayTime true bpm grainSubdivision t
      = ((60 / bpm) / grainSubdivision) * ⌈t / ((60 / bpm) / grainSubdivision)⌉ := by
    intro t
    simp only [computePlayTime, if_pos]
    ring
  refine ⟨heq nowTime, ?_, ?_, ?_, ?_⟩
  · rw [heq]
    rw [mul_comm]
    exact (div_le_iff₀ hs).mp (Int.le_ceil _)
  · intro k hk
    rw [heq, mul_comm]
    have h1 : nowTime / ((60 / bpm) / grainSubdivision) ≤ (k : ℚ) :=
      (div_le_iff₀ hs).mpr hk
    have h2 : (⌈nowTime / ((60 / bpm) / grainSubdivision)⌉ : ℚ) ≤ (k : ℚ) := by
      exact_mod_cast Int.ceil_le.mpr h1
    exact mul_le_mul_of_nonneg_right h2 hs.le
  · intro t1 t2 ht
    rw [heq, heq]
    have h1 : t1 / ((60 / bpm) / grainSubdivision) ≤ t2 / ((60 / bpm) / grainSubdivision) :=
      div_le_div_of_nonneg_right ht hs.le
    have h2 : (⌈t1 / ((60 / bpm) / grainSubdivision)⌉ : ℚ)
        ≤ (⌈t2 / ((60 / bpm) / grainSubdivision)⌉ : ℚ) := by
      exact_mod_cast Int.ceil_le_ceil h1
    exact mul_le_mul_of_nonneg_left h2 hs.le
  · simp [computePlayTime]

/-- C3 witness: at BPM 120, subdivision 4 and clock time 0.3 the grain is
scheduled at 0.375, the next multiple of 0.125. -/
theorem createGrain_tempo_quantization_witness :
    ((0:ℚ) < 120 ∧ (0:ℚ) < 4)
    ∧ computePlayTime true 120 4 (3/10)
        = ((60 / 120) / 4 : ℚ) * ⌈(3/10 : ℚ) / ((60 / 120) / 4)⌉
    ∧ (3/10 : ℚ) ≤ computePlayTime true 120 4 (3/10)
    ∧ computePlayTime false 120 4 (3/10) = 3/10
    ∧ computePlayTime true 120 4 (3/10) = 3/8 :=
  ⟨⟨by norm_num, by norm_num⟩,
   (createGrain_tempo_quantization 120 4 (3/10) (by norm_num) (by norm_num)).1,
   (createGrain_tempo_quantization 120 4 (3/10) (by norm_num) (by norm_num)).2.1,
   (createGrain_tempo_quantization 120 4 (3/10) (by norm_num) (by norm_num)).2.2.2.2,
   by
    have h3 : ⌈(12/5 : ℚ)⌉ = (3 : ℤ) :=
      Int.ceil_eq_iff.mpr ⟨by norm_num, by norm_num⟩
    norm_num [computePlayTime, h3]⟩

/-- C10 counterexample: on a 0.5ms buffer a non-reverse grain is scheduled
with `sourceOffset = 0` but `playbackDuration = grainDuration = 0.001`, so
offset + duration exceeds the buffer duration (the duration's 0.001 floor
beats the buffer length). -/
theorem source_offset_tiny_buffer_counterexample :
    computeSourceOffset (1/2000) (computeGrainDuration true 10 0 1 1 (1/2000))
        (clampedStartTime 0 0.005 (1/2) (1/2000)
          (computeGrainDuration true 10 0 1 1 (1/2000)) false) = 0
    ∧ computeGrainDuration true 10 0 1 1 (1/2000) = 1/1000
    ∧ (1/2000 : ℚ)
        < computeSourceOffset (1/2000) (computeGrainDuration true 10 0 1 1 (1/2000))
            (clampedStartTime 0 0.005 (1/2) (1/2000)
              (computeGrainDuration true 10 0 1 1 (1/2000)) false)
          + computeGrainDuration true 10 0 1 1 (1/2000) := by
  norm_num [computeGrainDuration, computeSpeedFactor, computeSourceOffset, clampedStartTime]

/-- C10 amended: for every non-reverse grain the source offset passed to
playback lies in `[0, max(0, bufferDuration - grainDuration - 0.0001)]`
regardless of position jitter; and provided `bufferDuration ≥ 0.001`,
offset plus the scheduled playback duration never exceeds the buffer
duration (for sub-millisecond buffers the duration floor can exceed the
buffer). -/
theorem createGrain_source_offset_in_range (tempoSyncOn : Bool)
    (brushSize density position jitterScale rand bufferDuration : ℚ)
    (densityScale durationMultiplier : ℚ) :
    (0 ≤ computeSourceOffset bufferDuration
        (computeGrainDuration tempoSyncOn brushSize density densityScale
          durationMultiplier bufferDuration)
        (clampedStartTime position jitterScale rand bufferDuration
          (computeGrainDuration tempoSyncOn brushSize density densityScale
            durationMultiplier bufferDuration) false)
    ∧ computeSourceOffset bufferDuration
        (computeGrainDuration tempoSyncOn brushSize density densityScale
          durationMultiplier bufferDuration)
        (clampedStartTime position jitterScale rand bufferDuration
          (computeGrainDuration tempoSyncOn brushSize density densityScale
            durationMultiplier bufferDuration) false)
      ≤ max 0 (bufferDuration
          - computeGrainDuration tempoSyncOn brushSize density densityScale
              durationMultiplier bufferDuration - 0.0001))
    ∧ (0.001 ≤ bufferDuration →
      computeSourceOffset bufferDuration
          (computeGrainDuration tempoSyncOn brushSize density densityScale
            durationMultiplier bufferDuration)
          (clampedStartTime position jitterScale rand bufferDuration
            (computeGrainDuration tempoSyncOn brushSize density densityScale
              durationMultiplier bufferDuration) false)
        + computeGrainDuration tempoSyncOn brushSize density densityScale
            durationMultiplier bufferDuration
      ≤ bufferDuration) := by
  set gd := computeGrainDuration tempoSyncOn brushSize density densityScale
    durationMultiplier bufferDuration with hgd
  set st := clampedStartTime position jitterScale rand bufferDuration gd false with hst
  have hlow : 0 ≤ computeSourceOffset bufferDuration gd st := le_max_left _ _
  have hhigh : computeSourceOffset bufferDuration gd st
      ≤ max 0 (bufferDuration - gd - 0.0001) := by
    simp only [computeSourceOffset]
    exact max_le (le_max_left _ _) (min_le_left _ _)
  refine ⟨⟨hlow, hhigh⟩, ?_⟩
  intro hD
  have hcap : gd ≤ max 0.001 (bufferDuration - 0.0005) := by
    rw [hgd]
    exact computeGrainDuration_le_safetyCap tempoSyncOn brushSize density densityScale
      durationMultiplier bufferDuration
  have hgdD : gd ≤ bufferDuration :=
    le_trans hcap (max_le hD (by linarith))
  rcases le_or_lt (bufferDuration - gd - 0.0001) 0 with hc | hc
  · have h0 : max 0 (bufferDuration - gd - 0.0001) = 0 := max_eq_left hc
    have : computeSourceOffset bufferDuration gd st = 0 :=
      le_antisymm (h0 ▸ hhigh) hlow
    rw [this]
    linarith
  · have h1 : computeSourceOffset bufferDuration gd st
        ≤ bufferDuration - gd - 0.0001 := by
      have := hhigh
      rwa [max_eq_right hc.le] at this
    linarith

/-- C10 amended witness: concrete non-reverse grain on a 1-second buffer. -/
theorem createGrain_source_offset_in_range_witness :
    (0.001 : ℚ) ≤ 1
    ∧ computeSourceOffset 1 (computeGrainDuration true 10 0 1 1 1)
          (clampedStartTime (1/2) 0.005 (1/2) 1 (computeGrainDuration true 10 0 1 1 1) false)
        + computeGrainDuration true 10 0 1 1 1
      ≤ 1 :=
  ⟨by norm_num,
   (createGrain_source_offset_in_range true 10 0 (1/2) 0.005 (1/2) 1 1 1).2 (by norm_num)⟩

/-- C6 counterexample: for `startTime = duration = 0` the clamped sample
range is empty (frame count `0 - 0 < 1`), yet `createBufferSegment`
returns a buffer — `frameCount = max(1, ...)` forces one frame — instead
of the claimed "no segment". -/
theorem createBufferSegment_degenerate_counterexample :
    createBufferSegment (some 4) (some demoBuf) 0 0 true ≠ none
    ∧ (createBufferSegment (some 4) (some demoBuf) 0 0 true).map AudioBufferM.length
        = some 1
    ∧ min ((demoBuf.length : ℤ)) ⌊((0:ℚ) + 0) * 4⌋ - max 0 ⌊(0:ℚ) * 4⌋ < 1 := by
  refine ⟨Option.some_ne_none _, ?_, by norm_num [demoBuf]⟩
  show some (bufferSegment 4 demoBuf 0 0 true).length = some 1
  norm_num [bufferSegment, demoBuf]

/-- C6 amended: with a context and a loaded buffer present the extractor
never returns "no segment" — it clamps the frame count to at least 1 and
returns a buffer even for a degenerate range (`null` is reserved for a
missing context or source buffer).  Degenerate grains are instead avoided
by the caller: `createGrain` aborts a reverse grain, producing no playback,
whenever the computed segment duration is at most 1ms, before invoking the
extractor. -/
theorem createBufferSegment_degenerate_clamped :
    (∀ (sr : ℚ) (buf : AudioBufferM) (startTime duration : ℚ) (reverse : Bool),
      ∃ seg, createBufferSegment (some sr) (some buf) startTime duration reverse = some seg
        ∧ 1 ≤ seg.length)
    ∧ (∀ (ctxPresent : Bool) (ctxSampleRate : ℚ) (buf : AudioBufferM)
        (isPlaying tempoSyncOn : Bool)
        (bpm grainSubdivision nowTime position pitch density brushSize rPitch rJitter : ℚ)
        (rng : List ℚ),
      (let settings := ((applyColorEffect rng "reverse-grain" brushSize).1).2.2
       let gd := computeGrainDuration tempoSyncOn brushSize density
         settings.densityScale settings.durationMultiplier buf.duration
       let st := clampedStartTime position settings.positionJitter rJitter
         buf.duration gd true
       max 0 (min buf.duration st - max 0 (min buf.duration st - gd)) ≤ 0.001) →
      createGrain ctxPresent ctxSampleRate (some buf) isPlaying tempoSyncOn bpm
        grainSubdivision nowTime position pitch density "reverse-grain" brushSize
        rPitch rJitter rng = none) := by
  constructor
  · intro sr buf startTime duration reverse
    refine ⟨bufferSegment sr buf startTime duration reverse, rfl, ?_⟩
    have h1 : ((1:ℤ)).toNat
        ≤ (max 1 (min (buf.length : ℤ) ⌊(startTime + duration) * sr⌋
            - max 0 ⌊startTime * sr⌋)).toNat :=
      Int.toNat_le_toNat (le_max_left _ _)
    exact h1
  · intro ctxPresent ctxSampleRate buf isPlaying tempoSyncOn bpm grainSubdivision
      nowTime position pitch density brushSize rPitch rJitter rng h
    simp only at h
    simp only [createGrain]
    split
    · rfl
    · rw [if_pos trivial]
      simp only [decide_True]
      rw [if_pos h]

/-- C6 amended witness: a degenerate extraction on concrete inputs yields
a 1-frame buffer, and a reverse grain on a 0.5ms buffer is aborted. -/
theorem createBufferSegment_degenerate_clamped_witness :
    (∃ seg, createBufferSegment (some 4) (some demoBuf) (1/4) (1/4) true = some seg
      ∧ 1 ≤ seg.length)
    ∧ createGrain true 4000 (some tinyBuf) true true 120 4 0 0 0 0 "reverse-grain" 10
        (1/2) (1/2) [] = none :=
  ⟨createBufferSegment_degenerate_clamped.1 4 demoBuf (1/4) (1/4) true,
   createBufferSegment_degenerate_clamped.2 true 4000 tinyBuf true true 120 4 0 0 0 0 10
     (1/2) (1/2) [] (by
      norm_num [applyColorEffect, baseColorSettings, tinyBuf, AudioBufferM.duration,
        computeGrainDuration, computeSpeedFactor, clampedStartTime])⟩

/-- `getD` over a map of `List.range` evaluates the function. -/
lemma getD_range_map (f : ℕ → ℚ) (n i : ℕ) (h : i < n) (d : ℚ) :
    ((List.range n).map f).getD i d = f i := by
  rw [List.getD_eq_getElem _ _ (by simpa using h)]
  simp

/-- `bufferSegment` in reverse mode on a sample-aligned in-range window
`[s, s+n)` produces `n` frames read back to front. -/
lemma bufferSegment_aligned_eq (sr : ℚ) (buf : AudioBufferM) (s n : ℕ)
    (hsr : 0 < sr) (hn : 1 ≤ n) (hsn : s + n ≤ buf.length) :
    bufferSegment sr buf ((s:ℚ)/sr) ((n:ℚ)/sr) true
      = { sampleRate := sr, length := n
          channels := buf.channels.map (fun src =>
            (List.range n).map (fun (i : ℕ) => getQZ src (((s+n:ℕ):ℤ) - 1 - (i:ℤ)))) } := by
  have hfl1 : ⌊((s:ℚ)/sr) * sr⌋ = (s:ℤ) := by
    rw [div_mul_cancel₀ _ (ne_of_gt hsr)]
    exact Int.floor_natCast s
  have hfl2 : ⌊((s:ℚ)/sr + (n:ℚ)/sr) * sr⌋ = ((s+n:ℕ):ℤ) := by
    rw [div_add_div_same, div_mul_cancel₀ _ (ne_of_gt hsr)]
    push_cast
    exact_mod_cast Int.floor_intCast ((s:ℤ) + n)
  simp only [bufferSegment, hfl1, hfl2]
  rw [max_eq_right (Int.natCast_nonneg s),
      min_eq_right (show ((s+n:ℕ):ℤ) ≤ (buf.length : ℤ) by exact_mod_cast hsn)]
  have hfc : (max 1 (((s+n:ℕ):ℤ) - (s:ℤ))).toNat = n := by
    have h1 : ((s+n:ℕ):ℤ) - (s:ℤ) = (n:ℤ) := by push_cast; ring
    rw [h1, max_eq_right (by exact_mod_cast hn)]
    exact Int.toNat_natCast n
  rw [hfc]
  simp

/-- Reversing an `n`-frame reversed window of `[s, s+n)` restores the
forward slice. -/
lemma reverse_reverse_channel (src : List ℚ) (s n : ℕ) (hsn : s + n ≤ src.length) :
    (List.range n).map (fun (i : ℕ) => getQZ
        ((List.range n).map (fun (j : ℕ) => getQZ src (((s+n:ℕ):ℤ) - 1 - (j:ℤ))))
        ((n:ℤ) - 1 - (i:ℤ)))
      = (src.drop s).take n := by
  apply List.ext_getElem
  · simp only [List.length_map, List.length_range, List.length_take, List.length_drop]
    omega
  · intro i h1 h2
    simp only [List.getElem_map, List.getElem_range]
    have hi : i < n := by simpa using h1
    rw [getQZ, if_neg (show ¬((n:ℤ) - 1 - (i:ℤ) < 0) by omega)]
    have ht : ((n:ℤ) - 1 - (i:ℤ)).toNat = n - 1 - i := by omega
    rw [ht, getD_range_map _ _ _ (by omega)]
    rw [getQZ, if_neg (show ¬(((s+n:ℕ):ℤ) - 1 - ((n - 1 - i : ℕ):ℤ) < 0) by omega)]
    have ht2 : ((((s+n:ℕ):ℤ)) - 1 - ((n - 1 - i : ℕ):ℤ)).toNat = s + i := by omega
    rw [ht2, List.getD_eq_getElem _ _ (show s + i < src.length by omega)]
    rw [List.getElem_take, List.getElem_drop]

/-- C5: extracting a reversed sample-aligned segment and then reverse-
extracting the full range of the result reproduces the original forward
sample sequence of the window exactly, with the channel count, sample
rate and frame count preserved. -/
theorem reverse_extract_involutive (sr : ℚ) (buf : AudioBufferM) (s n : ℕ)
    (hsr : 0 < sr) (hwf : ∀ ch ∈ buf.channels, ch.length = buf.length)
    (hn : 1 ≤ n) (hsn : s + n ≤ buf.length) (hbsr : buf.sampleRate = sr) :
    createBufferSegment (some sr) (some buf) ((s:ℚ)/sr) ((n:ℚ)/sr) true
      = some (bufferSegment sr buf ((s:ℚ)/sr) ((n:ℚ)/sr) true)
    ∧ (bufferSegment sr (bufferSegment sr buf ((s:ℚ)/sr) ((n:ℚ)/sr) true)
          0 ((n:ℚ)/sr) true).channels
        = buf.channels.map (fun ch => (ch.drop s).take n)
    ∧ (bufferSegment sr (bufferSegment sr buf ((s:ℚ)/sr) ((n:ℚ)/sr) true)
          0 ((n:ℚ)/sr) true).numberOfChannels = buf.numberOfChannels
    ∧ (bufferSegment sr (bufferSegment sr buf ((s:ℚ)/sr) ((n:ℚ)/sr) true)
          0 ((n:ℚ)/sr) true).sampleRate = buf.sampleRate
    ∧ (bufferSegment sr (bufferSegment sr buf ((s:ℚ)/sr) ((n:ℚ)/sr) true)
          0 ((n:ℚ)/sr) true).length = n := by
  have h1 := bufferSegment_aligned_eq sr buf s n hsr hn hsn
  have hz : (0 : ℚ) = ((0:ℕ):ℚ)/sr := by norm_num
  have h2 : bufferSegment sr (bufferSegment sr buf ((s:ℚ)/sr) ((n:ℚ)/sr) true)
      0 ((n:ℚ)/sr) true
      = { sampleRate := sr, length := n
          channels := (bufferSegment sr buf ((s:ℚ)/sr) ((n:ℚ)/sr) true).channels.map
            (fun src => (List.range n).map
              (fun (i : ℕ) => getQZ src (((0+n:ℕ):ℤ) - 1 - (i:ℤ)))) } := by
    rw [hz]
    exact bufferSegment_aligned_eq sr _ 0 n hsr hn (by rw [h1]; exact (Nat.zero_add n).le)
  refine ⟨rfl, ?_, ?_, ?_, ?_⟩
  · rw [h2, h1]
    simp only [List.map_map]
    refine List.map_congr_left ?_
    intro ch hch
    have hlen := hwf ch hch
    have := reverse_reverse_channel ch s n (by omega)
    simpa using this
  · rw [h2, h1]
    simp [AudioBufferM.numberOfChannels]
  · rw [h2, hbsr]
  · rw [h2]

/-- C5 witness: on the demo buffer, reverse-extracting frames `[1,3)` and
reverse-extracting the result restores the forward slice `[2, 3]`. -/
theorem reverse_extract_involutive_witness :
    ((0:ℚ) < 4 ∧ (1:ℕ) ≤ 2 ∧ 1 + 2 ≤ demoBuf.length ∧ demoBuf.sampleRate = 4)
    ∧ (bufferSegment 4 (bufferSegment 4 demoBuf (((1:ℕ):ℚ)/4) (((2:ℕ):ℚ)/4) true)
          0 (((2:ℕ):ℚ)/4) true).channels
        = demoBuf.channels.map (fun ch => (ch.drop 1).take 2)
    ∧ demoBuf.channels.map (fun ch => (ch.drop 1).take 2) = [[2, 3]] :=
  ⟨⟨by norm_num, by norm_num, by norm_num [demoBuf], rfl⟩,
   (reverse_extract_involutive 4 demoBuf 1 2 (by norm_num)
      (by intro ch hch; simp [demoBuf] at hch; rw [hch]; rfl)
      (by norm_num) (by norm_num [demoBuf]) rfl).2.1,
   by norm_num [demoBuf]⟩

/-- Round trip for 16-bit little-endian fields. -/
lemma decodeU16_u16le (n : ℕ) (h : n < 65536) : decodeU16 (u16le n) = n := by
  simp [decodeU16, u16le]
  omega

/-- Round trip for 32-bit little-endian fields. -/
lemma decodeU32_u32le (n : ℕ) (h : n < 4294967296) : decodeU32 (u32le n) = n := by
  simp [decodeU32, u32le]
  omega

lemma wavHeader_length (nc sr db : ℕ) : (wavHeader nc sr db).length = 44 := rfl

lemma wavHeader_f0 (nc sr db : ℕ) : (wavHeader nc sr db).take 4 = asciiRIFF := rfl

lemma wavHeader_f4 (nc sr db : ℕ) :
    ((wavHeader nc sr db).drop 4).take 4 = u32le (36 + db) := rfl

lemma wavHeader_f8 (nc sr db : ℕ) : ((wavHeader nc sr db).drop 8).take 4 = asciiWAVE := rfl

lemma wavHeader_f12 (nc sr db : ℕ) : ((wavHeader nc sr db).drop 12).take 4 = asciiFmt := rfl

lemma wavHeader_f16 (nc sr db : ℕ) : ((wavHeader nc sr db).drop 16).take 4 = u32le 16 := rfl

lemma wavHeader_f20 (nc sr db : ℕ) : ((wavHeader nc sr db).drop 20).take 2 = u16le 1 := rfl

lemma wavHeader_f22 (nc sr db : ℕ) : ((wavHeader nc sr db).drop 22).take 2 = u16le nc := rfl

lemma wavHeader_f24 (nc sr db : ℕ) : ((wavHeader nc sr db).drop 24).take 4 = u32le sr := rfl

lemma wavHeader_f28 (nc sr db : ℕ) :
    ((wavHeader nc sr db).drop 28).take 4 = u32le (sr * nc * 2) := rfl

lemma wavHeader_f32 (nc sr db : ℕ) :
    ((wavHeader nc sr db).drop 32).take 2 = u16le (nc * 2) := rfl

lemma wavHeader_f34 (nc sr db : ℕ) : ((wavHeader nc sr db).drop 34).take 2 = u16le 16 := rfl

lemma wavHeader_f36 (nc sr db : ℕ) : ((wavHeader nc sr db).drop 36).take 4 = asciiData := rfl

lemma wavHeader_f40 (nc sr db : ℕ) : ((wavHeader nc sr db).drop 40).take 4 = u32le db := rfl

/-- Extracting a field that lies inside the first summand of an append. -/
lemma drop_take_append {α : Type} (l₁ l₂ : List α) (off len : ℕ)
    (h : off + len ≤ l₁.length) :
    ((l₁ ++ l₂).drop off).take len = (l₁.drop off).take len := by
  have h1 : off - l₁.length = 0 := Nat.sub_eq_zero_of_le (by omega)
  have h2 : len - (l₁.drop off).length = 0 := by
    rw [List.length_drop]
    omega
  rw [List.drop_append_eq_append_drop, h1, List.drop_zero,
      List.take_append_eq_append_take, h2, List.take_zero, List.append_nil]

/-- Dropping exactly the first summand of an append. -/
lemma drop_all_append {α : Type} (l₁ l₂ : List α) (off : ℕ) (h : l₁.length = off) :
    (l₁ ++ l₂).drop off = l₂ := h ▸ List.drop_left l₁ l₂

lemma seqConcat_length (f : ℕ → List ℚ) (k : ℕ) (hf : ∀ i, (f i).length = k) :
    ∀ n, (seqConcat n f).length = n * k := by
  intro n
  induction n with
  | zero => simp [seqConcat]
  | succ m ih => simp [seqConcat, ih, hf, Nat.succ_mul]

lemma wavInterleaved_length (bufs : List (List (List ℚ))) (L : ℕ) :
    (wavInterleaved bufs L).length = L * wavNumChannels bufs := by
  have hinner : ∀ i, (seqConcat (wavNumChannels bufs)
      (fun ch => [((bufs.map (flattenChannel L)).getD ch []).getD i 0])).length
        = wavNumChannels bufs := by
    intro i
    have h := seqConcat_length
      (fun ch => [((bufs.map (flattenChannel L)).getD ch []).getD i 0]) 1
      (fun _ => rfl) (wavNumChannels bufs)
    simpa using h
  exact seqConcat_length _ (wavNumChannels bufs) hinner L

lemma flatMap_i16_length (l : List ℚ) :
    (l.flatMap (fun q => i16leBytes (sampleToInt16 q))).length = l.length * 2 := by
  induction l with
  | nil => rfl
  | cons a t ih =>
    simp only [List.flatMap_cons, List.length_append, ih, List.length_cons]
    have h2 : (i16leBytes (sampleToInt16 a)).length = 2 := rfl
    omega

/-- The full WAV layout, from the field bounds alone. -/
lemma wavFormatOk_of_bounds (bufs : List (List (List ℚ))) (L sampleRate : ℕ)
    (_hL : 1 ≤ L) (hc : 1 ≤ bufs.length)
    (hriff : 36 + L * bufs.length * 2 < 4294967296)
    (hbyte : sampleRate * bufs.length * 2 < 4294967296)
    (hch : bufs.length * 2 < 65536) :
    WavFormatOk bufs L sampleRate := by
  have hnc : wavNumChannels bufs = bufs.length := by
    unfold wavNumChannels
    rw [if_neg (by omega)]
  have hil : (wavInterleaved bufs L).length = L * bufs.length := by
    rw [wavInterleaved_length, hnc]
  have hdb : (wavInterleaved bufs L).length * 2 = L * bufs.length * 2 := by rw [hil]
  have hw : encodeWAV bufs L sampleRate
      = wavHeader (wavNumChannels bufs) sampleRate ((wavInterleaved bufs L).length * 2)
        ++ wavPCM bufs L := rfl
  have hdrop : ∀ off len : ℕ, off + len ≤ 44 →
      ((encodeWAV bufs L sampleRate).drop off).take len
        = ((wavHeader bufs.length sampleRate ((wavInterleaved bufs L).length * 2)).drop
            off).take len := by
    intro off len hol
    rw [hw, hnc, drop_take_append _ _ off len (by rw [wavHeader_length]; omega)]
  have hdb32 : L * bufs.length * 2 < 4294967296 :=
    lt_of_le_of_lt (Nat.le_add_left _ 36) hriff
  have hsr32 : sampleRate < 4294967296 := by
    calc sampleRate = sampleRate * 1 := (Nat.mul_one _).symm
      _ ≤ sampleRate * (bufs.length * 2) := Nat.mul_le_mul (Nat.le_refl _) (by omega)
      _ = sampleRate * bufs.length * 2 := (Nat.mul_assoc _ _ _).symm
      _ < 4294967296 := hbyte
  refine ⟨?_, ?_, ?_, ?_, ?_, ?_, ?_, ?_, ?_, ?_, ?_, ?_, ?_, ?_, ?_⟩
  · have h := hdrop 0 4 (by omega)
    simpa [wavHeader_f0] using h
  · rw [hdrop 4 4 (by omega), wavHeader_f4, decodeU32_u32le _ (by omega), hdb]
  · rw [hdrop 8 4 (by omega), wavHeader_f8]
  · rw [hdrop 12 4 (by omega), wavHeader_f12]
  · rw [hdrop 16 4 (by omega), wavHeader_f16, decodeU32_u32le _ (by omega)]
  · rw [hdrop 20 2 (by omega), wavHeader_f20, decodeU16_u16le _ (by omega)]
  · rw [hdrop 22 2 (by omega), wavHeader_f22, decodeU16_u16le _ (by omega)]
  · rw [hdrop 24 4 (by omega), wavHeader_f24, decodeU32_u32le _ hsr32]
  · rw [hdrop 28 4 (by omega), wavHeader_f28, decodeU32_u32le _ hbyte]
  · rw [hdrop 32 2 (by omega), wavHeader_f32, decodeU16_u16le _ hch]
  · rw [hdrop 34 2 (by omega), wavHeader_f34, decodeU16_u16le _ (by omega)]
  · rw [hdrop 36 4 (by omega), wavHeader_f36]
  · rw [hdrop 40 4 (by omega), wavHeader_f40, decodeU32_u32le _ (by omega), hdb]
  · rw [hw]
    exact drop_all_append _ _ 44 (wavHeader_length _ _ _)
  · rw [hw, List.length_append, wavHeader_length]
    show 44 + (wavPCM bufs L).length = 44 + L * bufs.length * 2
    rw [wavPCM, flatMap_i16_length, hil]

/-- C1: `stopRecording` on a session with at least one captured frame
returns the `encodeWAV` byte stream, whose header is exactly
`RIFF`/`36+dataBytes`/`WAVE`, a PCM `fmt ` subchunk with the captured
channel count, the engine sample rate, byte rate `sampleRate×channels×2`,
block align `channels×2`, 16 bits per sample, and a `data` subchunk with
`dataBytes = frameCount×channels×2`, followed by the clamped samples
quantized to signed 16-bit little-endian (negative `×32768`,
non-negative `×32767`, as `wavPCM` does). -/
theorem stopRecording_wav_format (s : RecState) (sampleRate : ℕ)
    (hctx : s.ctxPresent = true) (hrec : s.isRecording = true)
    (hL : 1 ≤ s.recordingLength) (hc : 1 ≤ s.recordedBuffers.length)
    (hriff : 36 + s.recordingLength * s.recordedBuffers.length * 2 < 4294967296)
    (hbyte : sampleRate * s.recordedBuffers.length * 2 < 4294967296)
    (hch : s.recordedBuffers.length * 2 < 65536) :
    (stopRecording s sampleRate).2
        = some (encodeWAV s.recordedBuffers s.recordingLength sampleRate)
    ∧ WavFormatOk s.recordedBuffers s.recordingLength sampleRate := by
  constructor
  · have h0 : s.recordingLength ≠ 0 := by omega
    have h2 : s.recordedBuffers ≠ [] := by
      intro he
      rw [he] at hc
      simp at hc
    simp [stopRecording, hctx, hrec, h0, h2]
  · exact wavFormatOk_of_bounds s.recordedBuffers s.recordingLength sampleRate
      hL hc hriff hbyte hch

/-- C1 witness: a one-frame stereo session at 8000 Hz. -/
theorem stopRecording_wav_format_witness :
    (demoRecState.ctxPresent = true ∧ demoRecState.isRecording = true
      ∧ 1 ≤ demoRecState.recordingLength ∧ 1 ≤ demoRecState.recordedBuffers.length)
    ∧ (stopRecording demoRecState 8000).2
        = some (encodeWAV demoRecState.recordedBuffers demoRecState.recordingLength 8000)
    ∧ WavFormatOk demoRecState.recordedBuffers demoRecState.recordingLength 8000 :=
  ⟨⟨rfl, rfl, by norm_num [demoRecState], by norm_num [demoRecState]⟩,
   (stopRecording_wav_format demoRecState 8000 rfl rfl
      (by norm_num [demoRecState]) (by norm_num [demoRecState])
      (by norm_num [demoRecState]) (by norm_num [demoRecState])
      (by norm_num [demoRecState])).1,
   (stopRecording_wav_format demoRecState 8000 rfl rfl
      (by norm_num [demoRecState]) (by norm_num [demoRecState])
      (by norm_num [demoRecState]) (by norm_num [demoRecState])
      (by norm_num [demoRecState])).2⟩

end PaintSonic
